import Mathlib

/-!
Verification development for the cyanoacrylate analysis-orchestration library.

The definitions below are a shallow embedding of the TypeScript sources:

* `src/src/util.ts` — the process supervisor (`killProcess`);
* `src/unnamed/part_003` (the current `index.ts`) — the analysis session:
  `startTrafficCollection`, `stopTrafficCollection`, `resetDevice`, `stop`;
* `src/src/emulator.ts` — the `AndroidEmulator` class:
  `fromRunTarget`, `start`, `rebuild`.

External effects (process signals, avd deletion/creation, proxy
reconfiguration) are recorded as explicit operation lists; external
asynchronous outcomes (whether a process exits within the grace period,
whether reading the HAR dump succeeds, …) are inputs to the embedded
functions.
-/

namespace Cyanoacrylate

/-! ## Process supervisor (src/src/util.ts)

`killProcess` from `src/src/util.ts`:
```
export const killProcess = async (proc?: ExecaChildProcess) => {
    if (proc) {
        proc.kill();
        await timeout(proc, { milliseconds: 15000 }).catch(() => proc.kill(9));
    }
};
```
A handle is modelled by the facts that determine the control flow:
whether the process is alive when `killProcess` is called, whether it
exits within the 15 s grace period after the interrupt, and whether the
awaited execa promise settles rejected (execa rejects for non-zero exits
and for signal-terminated processes).
-/

/-- An execa child-process handle, reduced to the behaviour visible to
`killProcess`. -/
structure ProcHandle where
  /-- The process is alive when `killProcess` is invoked. -/
  alive : Bool
  /-- If alive, the process exits within the 15 s grace period. -/
  exitsWithinGrace : Bool
  /-- The settled execa promise is a rejection (failed or killed run). -/
  settledRejected : Bool
deriving DecidableEq

/-- A signal-sending call made by `killProcess`: `proc.kill()` (graceful
interrupt) or `proc.kill(9)` (forceful kill). -/
inductive KillCall
  | graceful
  | force9
deriving DecidableEq

/-- Whether `timeout(proc, { milliseconds: 15000 })` rejects: it rejects on
the 15 s timeout (process still alive) or when the process promise itself
settles rejected. -/
def awaitRejects (h : ProcHandle) : Bool :=
  if h.alive then (if h.exitsWithinGrace then h.settledRejected else true)
  else h.settledRejected

/-- Outcome of one `killProcess` call: the `kill` calls made, the signals
actually delivered to a live process (a `kill` on an already-exited child
delivers nothing), and whether the call threw. -/
structure KillResult where
  calls : List KillCall
  delivered : List KillCall
  threw : Bool
deriving DecidableEq

/-- `killProcess` from `src/src/util.ts` lines 14–19. The `.catch` swallows
both the timeout rejection and a rejected process promise, so the function
never throws; the forceful `kill(9)` call happens exactly when the awaited
promise rejects, and is delivered only if the process is still alive at
that point (i.e. the grace period elapsed without an exit). -/
def killProcessRun : Option ProcHandle → KillResult
  | none => { calls := [], delivered := [], threw := false }
  | some h =>
    { calls := KillCall.graceful :: (if awaitRejects h then [KillCall.force9] else [])
      delivered :=
        (if h.alive then [KillCall.graceful] else []) ++
        (if awaitRejects h && h.alive && !h.exitsWithinGrace then [KillCall.force9] else [])
      threw := false }

/-! ## Session-level stop (src/unnamed/part_003, lines 791–798)

```
stop: async () => {
    await killProcess(mitmproxyState?.proc);
    if (analysisOptions.platform === 'android' && analysisOptions.runTarget === 'emulator') {
        // Clean up the emulator
        await killProcess(emulator?.proc);
    }
},
```
Before `ensureDevice`/`startTrafficCollection` have run, both
`mitmproxyState` and `emulator` are `undefined`.
-/

/-- Result of the session-level `stop()`: all `kill` calls made and whether
it threw. `stop` spawns nothing (its only operations are the two
`killProcess` calls). -/
structure SessionStopResult where
  calls : List KillCall
  threw : Bool
deriving DecidableEq

/-- The session-level `stop()` from `src/unnamed/part_003` lines 791–798,
as a function of the proxy process handle, the emulator process handle and
whether the target is an Android emulator. -/
def sessionStopRun (mitmProc emuProc : Option ProcHandle) (androidEmulator : Bool) :
    SessionStopResult :=
  let k1 := killProcessRun mitmProc
  let k2 := if androidEmulator then killProcessRun emuProc else ⟨[], [], false⟩
  { calls := k1.calls ++ k2.calls, threw := k1.threw || k2.threw }

/-! ## Claim theorems for the process supervisor -/

/-- C8: `killProcess` never throws for any input; for an undefined handle it
makes no kill call at all; for an already-dead handle no signal is
delivered (no-op); for a live process it delivers the graceful interrupt
and delivers the forceful `kill(9)` exactly when the process has not
exited within the 15 s grace period. -/
theorem killProcess_never_throws_and_graceful
    (h : ProcHandle) :
    (∀ p : Option ProcHandle, (killProcessRun p).threw = false) ∧
    killProcessRun none = ⟨[], [], false⟩ ∧
    (h.alive = false → (killProcessRun (some h)).delivered = []) ∧
    (h.alive = true →
      (killProcessRun (some h)).delivered =
        KillCall.graceful :: (if h.exitsWithinGrace then [] else [KillCall.force9])) := by
  refine ⟨?_, rfl, ?_, ?_⟩
  · intro p; cases p <;> rfl
  · intro hd
    simp [killProcessRun, awaitRejects, hd]
  · intro hd
    rcases h with ⟨a, g, r⟩
    simp only at hd
    subst hd
    cases g <;> cases r <;> simp [killProcessRun, awaitRejects]

/-- Witness for C8: a dead handle yields no delivered signal; a live,
unresponsive handle gets the interrupt and then the forceful kill. -/
theorem killProcess_never_throws_and_graceful_witness :
    (killProcessRun (some ⟨false, false, true⟩)).delivered = [] ∧
    (killProcessRun (some ⟨true, false, false⟩)).delivered =
      [KillCall.graceful, KillCall.force9] := by
  refine ⟨(killProcess_never_throws_and_graceful ⟨false, false, true⟩).2.2.1 rfl, ?_⟩
  have h := (killProcess_never_throws_and_graceful ⟨true, false, false⟩).2.2.2 rfl
  simpa using h

/-- C7: the session-level `stop()` on a session on which `ensureDevice()`
and `startTrafficCollection()` were never called (both process handles
absent) does not throw and makes no kill call whatsoever (and it spawns
nothing: its only possible operations are kill calls). -/
theorem sessionStop_idempotent_fresh (androidEmulator : Bool) :
    sessionStopRun none none androidEmulator = ⟨[], false⟩ := by
  cases androidEmulator <;> rfl

/-! ## Traffic-collection session (src/unnamed/part_003, lines 436–608)

The Android path of the session-level `startTrafficCollection` /
`stopTrafficCollection`. The WireGuard configuration is modelled at the
level of its parsed INI `Interface` section (the code only ever touches
`parsedWireguardConf['Interface'].IncludedApplications/ExcludedApplications`
and re-serialises the rest unchanged); timestamps are opaque `Nat`s; the
outcome of reading and JSON-parsing the temporary HAR dump file is an
input.
-/

/-- `TrafficCollectionOptionsV1` from `src/unnamed/part_003` line 102. -/
inductive TrafficCollectionOptions
  | allApps
  | allowlist (apps : List String)
  | denylist (apps : List String)
deriving DecidableEq

/-- The parsed WireGuard tunnel configuration, reduced to the fields the
code reads or writes plus an opaque remainder. -/
structure WgConf where
  includedApplications : Option String
  excludedApplications : Option String
  rest : List (String × String)
deriving DecidableEq

/-- The scope rewriting of the tunnel configuration in
`startTrafficCollection` (`src/unnamed/part_003` lines 499–508):
`allowlist` sets `IncludedApplications` to `options.apps.join(', ')`,
`denylist` sets `ExcludedApplications` likewise, `all-apps` changes
nothing. -/
def applyScope : TrafficCollectionOptions → WgConf → WgConf
  | .allowlist apps, conf =>
    { conf with includedApplications := some (String.intercalate ", " apps) }
  | .denylist apps, conf =>
    { conf with excludedApplications := some (String.intercalate ", " apps) }
  | .allApps, conf => conf

/-- The `trafficCollectionInProgress` record (`src/unnamed/part_003`
line 447): start timestamp and the (normalised) options. -/
structure TrafficMeta where
  startDate : Nat
  options : TrafficCollectionOptions
deriving DecidableEq

/-- The `mitmproxyState` record: the temporary HAR output path and the raw
WireGuard configuration reported by the proxy (if any). -/
structure MitmState where
  harOutputPath : String
  wireguardConf : Option WgConf
deriving DecidableEq

/-- The mutable session state relevant to traffic collection. -/
structure SessionState where
  trafficCollectionInProgress : Option TrafficMeta
  mitmproxy : Option MitmState
deriving DecidableEq

/-- Device- and process-facing operations performed by the session. -/
inductive SessionOp
  | installCA
  | spawnMitmdump
  | setProxyWg (conf : WgConf)
  | setProxyNull
  | removeCA
  | killProxy
deriving DecidableEq

/-- Result of one `startTrafficCollection` call. -/
structure StartTcResult where
  result : Except String Unit
  state : SessionState
  ops : List SessionOp

/-- The session-level `startTrafficCollection` from `src/unnamed/part_003`
lines 442–548 (Android path). If a collection is already in progress it
throws before performing any operation; otherwise it normalises missing
options to `{ mode: 'all-apps' }`, installs the mitmproxy certificate
authority, spawns `mitmdump`, and — once the proxy reports a running
WireGuard server with configuration `reportedConf` — applies the scope
rewriting and pushes the result to the device via `setProxy`. The state
stores the raw reported configuration. -/
def startTrafficCollection (s : SessionState) (options? : Option TrafficCollectionOptions)
    (startDate : Nat) (harPath : String) (reportedConf : Option WgConf) : StartTcResult :=
  if s.trafficCollectionInProgress.isSome then
    { result := .error "Cannot start new traffic collection. A previous one is still running."
      state := s
      ops := [] }
  else
    let opts := options?.getD .allApps
    { result := .ok ()
      state := { trafficCollectionInProgress := some ⟨startDate, opts⟩
                 mitmproxy := some ⟨harPath, reportedConf⟩ }
      ops := [SessionOp.installCA, SessionOp.spawnMitmdump] ++
        (match reportedConf with
          | some conf => [SessionOp.setProxyWg (applyScope opts conf)]
          | none => []) }

/-- The `_tweasel` metadata block recorded in the returned HAR (the fields
the claims are about). -/
structure TweaselHarMeta where
  startDate : Nat
  endDate : Nat
  options : TrafficCollectionOptions
deriving DecidableEq

/-- The returned HAR: the parsed dump payload (opaque) plus the `_tweasel`
metadata block. -/
structure TweaselHar where
  rawLog : String
  meta : TweaselHarMeta
deriving DecidableEq

/-- Result of one `stopTrafficCollection` call. -/
structure StopTcResult where
  result : Except String TweaselHar
  state : SessionState
  ops : List SessionOp

/-- The session-level `stopTrafficCollection` from `src/unnamed/part_003`
lines 549–608. It throws if no collection is running. Otherwise it kills
the proxy process and waits for it to close, then reads and JSON-parses
the temporary HAR dump (`readResult` is that outcome). On a read/parse
failure the `catch` block throws a fresh error, so the subsequent
`setProxy(null)` and `removeCertificateAuthority` calls are never reached
and the in-progress state is left in place; on success both cleanup calls
run once each, the state is cleared and the HAR is returned with the
`_tweasel` metadata. -/
def stopTrafficCollection (s : SessionState) (endDate : Nat)
    (readResult : Except Unit String) : StopTcResult :=
  match s.mitmproxy, s.trafficCollectionInProgress with
  | some m, some meta =>
    (match readResult with
      | .error _ =>
        { result := .error
            ("Reading the flows from the temporary file \"" ++ m.harOutputPath ++ "\" failed.")
          state := s
          ops := [SessionOp.killProxy] }
      | .ok dump =>
        { result := .ok ⟨dump, ⟨meta.startDate, endDate, meta.options⟩⟩
          state := { trafficCollectionInProgress := none, mitmproxy := none }
          ops := [SessionOp.killProxy, SessionOp.setProxyNull, SessionOp.removeCA] })
  | _, _ =>
    { result := .error "No traffic collection is running.", state := s, ops := [] }

/-- A concrete session state with an open traffic collection, used to
exercise `stopTrafficCollection` on a corrupted dump file. -/
def openCollectionState : SessionState :=
  { trafficCollectionInProgress := some ⟨0, .allApps⟩
    mitmproxy := some ⟨"/tmp/dump.har", none⟩ }

/-! ## Claim theorems for the traffic-collection session -/

/-- C1 counterexample: on an open traffic collection whose temporary HAR
dump fails to read/parse, `stopTrafficCollection` performs neither
`setProxy(null)` nor `removeCertificateAuthority` — refuting the claim
that each happens exactly once regardless of the dump outcome. -/
theorem stopTrafficCollection_cleanup_counterexample :
    ¬ ((stopTrafficCollection openCollectionState 1 (.error ())).ops.count
          SessionOp.setProxyNull = 1 ∧
       (stopTrafficCollection openCollectionState 1 (.error ())).ops.count
          SessionOp.removeCA = 1) := by
  decide

/-- C1 (amended): on an open traffic collection, `stopTrafficCollection`
removes the proxy route and the certificate authority exactly once each
when the dump reads and parses successfully; when reading or parsing
fails it throws and performs neither removal. -/
theorem stopTrafficCollection_cleanup (s : SessionState) (m : MitmState)
    (meta : TrafficMeta) (endDate : Nat)
    (hm : s.mitmproxy = some m) (hp : s.trafficCollectionInProgress = some meta) :
    (∀ dump : String,
      (stopTrafficCollection s endDate (.ok dump)).ops.count SessionOp.setProxyNull = 1 ∧
      (stopTrafficCollection s endDate (.ok dump)).ops.count SessionOp.removeCA = 1 ∧
      (stopTrafficCollection s endDate (.ok dump)).result =
        .ok ⟨dump, ⟨meta.startDate, endDate, meta.options⟩⟩) ∧
    (∀ e : Unit,
      (stopTrafficCollection s endDate (.error e)).ops.count SessionOp.setProxyNull = 0 ∧
      (stopTrafficCollection s endDate (.error e)).ops.count SessionOp.removeCA = 0 ∧
      (stopTrafficCollection s endDate (.error e)).result =
        .error ("Reading the flows from the temporary file \"" ++ m.harOutputPath ++ "\" failed.")) := by
  constructor
  · intro dump
    simp [stopTrafficCollection, hm, hp, List.count_cons]
  · intro e
    simp [stopTrafficCollection, hm, hp, List.count_cons]

/-- Witness for the amended C1 at a concrete open collection. -/
theorem stopTrafficCollection_cleanup_witness :
    (stopTrafficCollection openCollectionState 1 (.ok "x")).ops.count
        SessionOp.setProxyNull = 1 ∧
    (stopTrafficCollection openCollectionState 1 (.error ())).ops.count
        SessionOp.setProxyNull = 0 := by
  have h := stopTrafficCollection_cleanup openCollectionState
    ⟨"/tmp/dump.har", none⟩ ⟨0, .allApps⟩ 1 rfl rfl
  exact ⟨(h.1 "x").1, (h.2 ()).1⟩

/-- C2: calling `startTrafficCollection` while a previous collection is
still open throws the usage error, performs no operation (in particular
spawns no second mitmproxy process) and leaves the session state
unchanged. -/
theorem startTrafficCollection_single_flight (s : SessionState) (meta : TrafficMeta)
    (h : s.trafficCollectionInProgress = some meta)
    (options? : Option TrafficCollectionOptions) (startDate : Nat)
    (harPath : String) (reportedConf : Option WgConf) :
    (startTrafficCollection s options? startDate harPath reportedConf).result =
      .error "Cannot start new traffic collection. A previous one is still running." ∧
    (startTrafficCollection s options? startDate harPath reportedConf).state = s ∧
    (startTrafficCollection s options? startDate harPath reportedConf).ops = [] := by
  refine ⟨?_, ?_, ?_⟩ <;> simp [startTrafficCollection, h]

/-- Witness for C2 at a concrete open collection. -/
theorem startTrafficCollection_single_flight_witness :
    (startTrafficCollection openCollectionState none 2 "/tmp/y.har" none).ops = [] :=
  (startTrafficCollection_single_flight openCollectionState ⟨0, .allApps⟩ rfl
    none 2 "/tmp/y.har" none).2.2

/-- C3: for every WireGuard configuration reported by the proxy, an
allowlist scope sets `IncludedApplications` to exactly the apps joined
with `', '` and leaves `ExcludedApplications` (and the rest of the
configuration) untouched; a denylist scope does the inverse; an all-apps
scope leaves the whole configuration untouched — and
`startTrafficCollection` pushes exactly the rewritten configuration to
the device. -/
theorem startTrafficCollection_scope_translation (conf : WgConf) (apps : List String)
    (s : SessionState) (h : s.trafficCollectionInProgress = none)
    (startDate : Nat) (harPath : String) :
    (applyScope (.allowlist apps) conf).includedApplications =
      some (String.intercalate ", " apps) ∧
    (applyScope (.allowlist apps) conf).excludedApplications = conf.excludedApplications ∧
    (applyScope (.allowlist apps) conf).rest = conf.rest ∧
    (applyScope (.denylist apps) conf).excludedApplications =
      some (String.intercalate ", " apps) ∧
    (applyScope (.denylist apps) conf).includedApplications = conf.includedApplications ∧
    (applyScope (.denylist apps) conf).rest = conf.rest ∧
    applyScope .allApps conf = conf ∧
    (∀ mode : TrafficCollectionOptions,
      (startTrafficCollection s (some mode) startDate harPath (some conf)).ops =
        [SessionOp.installCA, SessionOp.spawnMitmdump,
         SessionOp.setProxyWg (applyScope mode conf)]) := by
  refine ⟨rfl, rfl, rfl, rfl, rfl, rfl, rfl, ?_⟩
  intro mode
  simp [startTrafficCollection, h]

/-- Witness for C3 at a concrete configuration and app list. -/
theorem startTrafficCollection_scope_translation_witness :
    (applyScope (.allowlist ["app.a", "app.b"]) ⟨none, some "x", []⟩).includedApplications =
      some "app.a, app.b" := by
  have h := startTrafficCollection_scope_translation ⟨none, some "x", []⟩
    ["app.a", "app.b"] ⟨none, none⟩ rfl 0 "/tmp/z.har"
  simpa using h.1

/-- C10: calling the device-wide `startTrafficCollection` with no options
argument behaves identically to calling it with `{ mode: 'all-apps' }`:
the call results are equal for every state, the reported tunnel
configuration is pushed unmodified, and the options recorded in the
returned HAR's `_tweasel` metadata block are `all-apps`. -/
theorem startTrafficCollection_default_all_apps (s : SessionState)
    (startDate : Nat) (harPath : String) (conf : WgConf)
    (h : s.trafficCollectionInProgress = none) :
    (∀ reportedConf : Option WgConf,
      startTrafficCollection s none startDate harPath reportedConf =
        startTrafficCollection s (some .allApps) startDate harPath reportedConf) ∧
    (startTrafficCollection s none startDate harPath (some conf)).ops =
      [SessionOp.installCA, SessionOp.spawnMitmdump, SessionOp.setProxyWg conf] ∧
    (∀ (endDate : Nat) (dump : String),
      (stopTrafficCollection
          (startTrafficCollection s none startDate harPath (some conf)).state
          endDate (.ok dump)).result =
        .ok ⟨dump, ⟨startDate, endDate, .allApps⟩⟩) := by
  refine ⟨fun reportedConf => rfl, ?_, ?_⟩
  · simp [startTrafficCollection, h, applyScope]
  · intro endDate dump
    simp [startTrafficCollection, h, stopTrafficCollection]

/-- Witness for C10 at a fresh session state. -/
theorem startTrafficCollection_default_all_apps_witness :
    (stopTrafficCollection
        (startTrafficCollection ⟨none, none⟩ none 3 "/tmp/w.har"
          (some ⟨none, none, []⟩)).state 4 (.ok "log")).result =
      .ok ⟨"log", ⟨3, 4, .allApps⟩⟩ :=
  (startTrafficCollection_default_all_apps ⟨none, none⟩ 3 "/tmp/w.har"
    ⟨none, none, []⟩ rfl).2.2 4 "log"

/-! ## resetDevice (src/unnamed/part_003, lines 691–708)

```
async resetDevice() {
    if (analysisOptions.platform !== 'android' || analysisOptions.runTarget !== 'emulator')
        throw new Error('Resetting devices is only supported for Android emulators.');
    const snapshotName = emulator?.resetSnapshotName;
    if (!snapshotName) throw new Error('Cannot reset device: No snapshot name specified.');
    return timeout(platform.resetDevice(snapshotName), { milliseconds: 5 * 60 * 1000 })
      .catch(async (err) => {
        if (!(err instanceof TimeoutError)) throw err;
        await timeout((await this).ensureDevice({ killExisting: true }), { milliseconds: 60 * 1000 });
        await timeout(platform.resetDevice(snapshotName), { milliseconds: 5 * 60 * 1000 });
    });
}
```
The outcomes of the three awaited external operations (first reset,
forced ensureDevice, second reset) are inputs.
-/

/-- The target platform of the analysis session. -/
inductive Platform
  | android
  | ios
deriving DecidableEq

/-- The run target of the analysis session. -/
inductive RunTarget
  | emulator
  | device
deriving DecidableEq

/-- Outcome of one awaited, timeout-bounded external operation: it
resolved in time, the bounding timeout fired (`TimeoutError`), or it
rejected with some other error. -/
inductive AttemptOutcome
  | success
  | timedOut
  | failed (msg : String)
deriving DecidableEq

/-- The operations `resetDevice` performs, with the timeout each one is
bounded by (in milliseconds). -/
inductive ResetOp
  | resetAttempt (snapshot : String) (timeoutMs : Nat)
  | ensureKillExisting (timeoutMs : Nat)
deriving DecidableEq

/-- The errors `resetDevice` can throw. -/
inductive ResetErr
  | notSupported
  | noSnapshot
  | timeout
  | other (msg : String)
deriving DecidableEq

/-- `true` exactly for a snapshot-reset attempt. -/
def ResetOp.isReset : ResetOp → Bool
  | .resetAttempt _ _ => true
  | .ensureKillExisting _ => false

/-- The session-level `resetDevice` from `src/unnamed/part_003` lines
691–708. Non-emulator targets and a missing snapshot name are usage
errors thrown before any operation. Otherwise the snapshot is applied
under a 5-minute (300000 ms) timeout; exactly on a `TimeoutError` the
`catch` escalates once — a `killExisting` `ensureDevice()` bounded at
60000 ms followed by one more 5-minute-bounded reset — while any other
error is rethrown unhandled; a failure of the escalation itself
propagates with no further retry. -/
def resetDevice (platform : Platform) (runTarget : RunTarget)
    (resetSnapshotName : Option String)
    (first ensure second : AttemptOutcome) : Except ResetErr Unit × List ResetOp :=
  if platform = Platform.android ∧ runTarget = RunTarget.emulator then
    match resetSnapshotName with
    | none => (.error .noSnapshot, [])
    | some snap =>
      match first with
      | .success => (.ok (), [.resetAttempt snap 300000])
      | .failed msg => (.error (.other msg), [.resetAttempt snap 300000])
      | .timedOut =>
        match ensure with
        | .timedOut =>
          (.error .timeout, [.resetAttempt snap 300000, .ensureKillExisting 60000])
        | .failed msg =>
          (.error (.other msg), [.resetAttempt snap 300000, .ensureKillExisting 60000])
        | .success =>
          match second with
          | .success =>
            (.ok (), [.resetAttempt snap 300000, .ensureKillExisting 60000,
                      .resetAttempt snap 300000])
          | .timedOut =>
            (.error .timeout, [.resetAttempt snap 300000, .ensureKillExisting 60000,
                               .resetAttempt snap 300000])
          | .failed msg =>
            (.error (.other msg), [.resetAttempt snap 300000, .ensureKillExisting 60000,
                                   .resetAttempt snap 300000])
  else (.error .notSupported, [])

/-- C6: `resetDevice` throws for every non-emulator target and for every
emulator target without a known snapshot name, performing no operation;
otherwise it applies the snapshot under the 5-minute timeout; exactly on
a `TimeoutError` (never on other errors, which are rethrown without
escalation) it escalates once — a `killExisting` `ensureDevice()`
bounded at 60 s followed by one more 5-minute-bounded reset attempt —
and in every case it makes at most two reset attempts. -/
theorem resetDevice_escalation (platform : Platform) (runTarget : RunTarget)
    (snapshotName? : Option String) (snap msg : String)
    (first ensure second : AttemptOutcome) :
    (¬ (platform = Platform.android ∧ runTarget = RunTarget.emulator) →
      resetDevice platform runTarget snapshotName? first ensure second =
        (.error .notSupported, [])) ∧
    (resetDevice Platform.android RunTarget.emulator none first ensure second =
      (.error .noSnapshot, [])) ∧
    (resetDevice Platform.android RunTarget.emulator (some snap) .success ensure second =
      (.ok (), [.resetAttempt snap 300000])) ∧
    (resetDevice Platform.android RunTarget.emulator (some snap) (.failed msg) ensure second =
      (.error (.other msg), [.resetAttempt snap 300000])) ∧
    (ensure = .success → second = .success →
      resetDevice Platform.android RunTarget.emulator (some snap) .timedOut ensure second =
        (.ok (), [.resetAttempt snap 300000, .ensureKillExisting 60000,
                  .resetAttempt snap 300000])) ∧
    ((resetDevice platform runTarget snapshotName? first ensure second).2.countP
        ResetOp.isReset ≤ 2) := by
  refine ⟨?_, rfl, rfl, rfl, ?_, ?_⟩
  · intro h
    simp [resetDevice, h]
  · intro he hs
    subst he; subst hs; rfl
  · by_cases h : platform = Platform.android ∧ runTarget = RunTarget.emulator
    · obtain ⟨hp, hr⟩ := h
      subst hp; subst hr
      cases snapshotName? with
      | none => simp [resetDevice]
      | some s =>
        cases first <;> cases ensure <;> cases second <;>
          simp [resetDevice, ResetOp.isReset, List.countP_cons]
    · simp [resetDevice, h]

/-- Witness for C6: a timed-out first reset with a successful escalation
at a concrete snapshot name. -/
theorem resetDevice_escalation_witness :
    resetDevice Platform.android RunTarget.emulator (some "snap") .timedOut
        .success .success =
      (.ok (), [.resetAttempt "snap" 300000, .ensureKillExisting 60000,
                .resetAttempt "snap" 300000]) :=
  (resetDevice_escalation Platform.android RunTarget.emulator (some "snap") "snap" ""
    .timedOut .success .success).2.2.2.2.1 rfl rfl

/-! ## AndroidEmulator (src/src/emulator.ts, class AndroidEmulator)

The class fields that `start()` and `rebuild()` read or write, with the
OS process handle reduced to its presence (`_proc !== undefined`) and the
avd-level and process-level effects recorded as operations.
-/

/-- `EmulatorOptions` passed to andromatic `createEmulator` (the default
used by `fromRunTarget` fixes exactly these three fields). -/
structure CreateOptions where
  apiLevel : Nat
  variant : String
  architecture : String
deriving DecidableEq

/-- The `AndroidEmulator` instance state (src/src/emulator.ts lines
80–111). -/
structure EmulatorHandle where
  name : Option String
  /-- `this._proc !== undefined` -/
  procPresent : Bool
  hasExited : Bool
  failedStarts : Nat
  restartLimit : Nat
  rebuilds : Nat
  rebuildsLimit : Nat
  resetSnapshotName : Option String
  createOptions : Option CreateOptions
  lastErrorMsg : Option String
deriving DecidableEq

/-- External effects of `start()`/`rebuild()`. -/
inductive EmuOp
  | killProc
  | deleteAvd (name : String)
  | createAvd (name : String)
  | spawnEmulator (name : String)
deriving DecidableEq

/-- The diagnostic payload of the terminal `EmulatorError` thrown by
`start()` when both limits are exhausted (src/src/emulator.ts lines
215–218): the accumulated counters and the last captured error. -/
structure EmulatorErrorInfo where
  failedStarts : Nat
  rebuilds : Nat
  lastErrorMsg : Option String
deriving DecidableEq

/-- Errors thrown by `start()`. -/
inductive StartErr
  | noName
  | notManagedRebuild
  | terminal (info : EmulatorErrorInfo)
deriving DecidableEq

/-- `AndroidEmulator.rebuild()` (src/src/emulator.ts lines 280–293): a
no-op without a name; an error for an emulator not created by the
library; otherwise it kills the process, deletes and recreates the avd,
resets `failedStarts` to 0, increments `rebuilds`, clears the process
slot and drops the remembered reset snapshot. -/
def EmulatorHandle.rebuild (e : EmulatorHandle) :
    Except StartErr (EmulatorHandle × List EmuOp) :=
  match e.name with
  | none => .ok (e, [])
  | some n =>
    match e.createOptions with
    | none => .error .notManagedRebuild
    | some _ =>
      .ok ({ e with
              failedStarts := 0
              rebuilds := e.rebuilds + 1
              hasExited := false
              procPresent := false
              resetSnapshotName := none },
           [.killProc, .deleteAvd n, .createAvd n])

/-- `AndroidEmulator.start()` (src/src/emulator.ts lines 208–265). The
escalation gate: once `failedStarts` exceeds `restartLimit`, either a
rebuild is performed (while `rebuilds <= rebuildsLimit`) or the terminal
`EmulatorError` is thrown. After the gate, a forced restart kills a live
process (the relaunch is scheduled on its exit event), starting a live
non-exited handle is a no-op, and otherwise the emulator binary is
spawned. -/
def EmulatorHandle.start (e : EmulatorHandle) (forceRestart : Bool) :
    Except StartErr (EmulatorHandle × List EmuOp) :=
  match e.name with
  | none => .error .noName
  | some n => do
    let (e1, ops1) ←
      if e.failedStarts > e.restartLimit then
        if e.rebuilds ≤ e.rebuildsLimit then e.rebuild
        else .error (.terminal ⟨e.failedStarts, e.rebuilds, e.lastErrorMsg⟩)
      else .ok (e, [])
    if forceRestart && !e1.hasExited && e1.procPresent then
      .ok (e1, ops1 ++ [.killProc])
    else if e1.procPresent && !e1.hasExited then
      .ok (e1, ops1)
    else
      .ok ({ e1 with
              procPresent := true
              hasExited := false
              lastErrorMsg := none },
           ops1 ++ [.spawnEmulator n])

/-- C4: for an emulator with restart limit `R` and rebuild limit `B`, a
`start()` call with `failedStarts > R` performs a rebuild — deleting and
recreating the device, resetting `failedStarts` to 0, incrementing
`rebuilds` and dropping the remembered reset snapshot — rather than a
plain restart, as long as `rebuilds ≤ B`; and once `failedStarts > R`
while `rebuilds > B`, `start()` throws the terminal `EmulatorError`
carrying the accumulated counters and last error, performing no
operation, so crash-retry cannot loop indefinitely. -/
theorem emulator_start_bounded_escalation (e : EmulatorHandle) (n : String)
    (co : CreateOptions) (hn : e.name = some n) (hc : e.createOptions = some co)
    (hf : e.failedStarts > e.restartLimit) :
    (e.rebuilds ≤ e.rebuildsLimit →
      e.start false =
        .ok ({ e with
                failedStarts := 0
                rebuilds := e.rebuilds + 1
                hasExited := false
                procPresent := true
                resetSnapshotName := none
                lastErrorMsg := none },
             [.killProc, .deleteAvd n, .createAvd n, .spawnEmulator n])) ∧
    (e.rebuilds > e.rebuildsLimit →
      e.start false = .error (.terminal ⟨e.failedStarts, e.rebuilds, e.lastErrorMsg⟩)) := by
  constructor
  · intro hb
    simp [EmulatorHandle.start, EmulatorHandle.rebuild, hn, hc, hf, hb, bind, Except.bind]
  · intro hb
    simp [EmulatorHandle.start, hn, hf, hb, Nat.not_le.mpr hb, bind, Except.bind]

/-- Witness for C4: a managed emulator with restart limit 1 after two
consecutive crashes rebuilds on the next `start()`; the same handle with
its rebuild budget exhausted throws the terminal error. -/
theorem emulator_start_bounded_escalation_witness :
    (EmulatorHandle.start
        ⟨some "cyanoacrylate-test-0", false, true, 2, 1, 0, 1, some "snap",
          some ⟨30, "google_apis", "x86_64"⟩, some "crash"⟩ false =
      .ok (⟨some "cyanoacrylate-test-0", true, false, 0, 1, 1, 1, none,
            some ⟨30, "google_apis", "x86_64"⟩, none⟩,
           [.killProc, .deleteAvd "cyanoacrylate-test-0",
            .createAvd "cyanoacrylate-test-0", .spawnEmulator "cyanoacrylate-test-0"])) ∧
    (EmulatorHandle.start
        ⟨some "cyanoacrylate-test-0", false, true, 2, 1, 2, 1, none,
          some ⟨30, "google_apis", "x86_64"⟩, some "crash"⟩ false =
      .error (.terminal ⟨2, 2, some "crash"⟩)) := by
  constructor
  · exact (emulator_start_bounded_escalation
      ⟨some "cyanoacrylate-test-0", false, true, 2, 1, 0, 1, some "snap",
        some ⟨30, "google_apis", "x86_64"⟩, some "crash"⟩ "cyanoacrylate-test-0"
      ⟨30, "google_apis", "x86_64"⟩ rfl rfl (by decide)).1 (by decide)
  · exact (emulator_start_bounded_escalation
      ⟨some "cyanoacrylate-test-0", false, true, 2, 1, 2, 1, none,
        some ⟨30, "google_apis", "x86_64"⟩, some "crash"⟩ "cyanoacrylate-test-0"
      ⟨30, "google_apis", "x86_64"⟩ rfl rfl (by decide)).2 (by decide)

/-! ## Resolve-or-create (src/src/emulator.ts, AndroidEmulator.fromRunTarget,
lines 117–196, managed branch)

The managed branch computes
`name = cyanoacrylate-${key}-${optionsHash}${headless ? '-headless' : ''}`
where `optionsHash = hashObject({emulatorOptions, honeyData, capabilities},
{algorithm: 'md5'})`, matches every listed avd name against the unanchored
regular expression
``cyanoacrylate-${key}-([a-fA-F0-9]{32})(-headless)?``,
reuses a unique match with the same hash and headless marker, deletes
non-matching candidates that start with `cyanoacrylate-`, creates the avd
when nothing matched, and treats more than one match as a fatal
internal-consistency error.

The external md5 `hashObject` is modelled as a function parameter
`hash : EmulatorCreateConfig → String`; its real output is a 32-character
hexadecimal digest (`isHex32`).
-/

/-- The inputs of the configuration fingerprint (`hashObject` argument in
src/src/emulator.ts lines 135–142): the `createEmulator` options, the
honey data (opaque payload) and the capability set. -/
structure EmulatorCreateConfig where
  emulatorOptions : CreateOptions
  honeyData : String
  capabilities : List String
deriving DecidableEq

/-- A managed-emulator run-target configuration as consumed by the naming
logic: the user key, the fingerprinted creation configuration and the
headless flag. -/
structure ManagedEmulatorConfig where
  key : String
  create : EmulatorCreateConfig
  headless : Bool
deriving DecidableEq

/-- The deterministic emulator name (src/src/emulator.ts lines 144–146). -/
def computeEmulatorName (hash : EmulatorCreateConfig → String)
    (c : ManagedEmulatorConfig) : String :=
  "cyanoacrylate-" ++ c.key ++ "-" ++ hash c.create ++
    (if c.headless then "-headless" else "")

/-- A character of the regex class `[a-fA-F0-9]`. -/
def hexDigit (c : Char) : Bool :=
  (48 ≤ c.toNat && c.toNat ≤ 57) || (97 ≤ c.toNat && c.toNat ≤ 102) ||
    (65 ≤ c.toNat && c.toNat ≤ 70)

/-- `p` is a prefix of `s` (character-wise). -/
def listStartsWith : List Char → List Char → Bool
  | [], _ => true
  | _ :: _, [] => false
  | a :: p, b :: s => a == b && listStartsWith p s

/-- One attempt of the regular expression
``cyanoacrylate-${key}-([a-fA-F0-9]{32})(-headless)?`` at the current
position: the literal part `pfx` must match, followed by exactly 32 hex
characters (the captured hash); the optional group captures `-headless`
exactly when it follows immediately. -/
def matchAt (pfx : List Char) (s : List Char) : Option (String × Bool) :=
  if listStartsWith pfx s then
    let rest := s.drop pfx.length
    let hashPart := rest.take 32
    if hashPart.length = 32 ∧ hashPart.all hexDigit then
      some (⟨hashPart⟩, listStartsWith "-headless".toList (rest.drop 32))
    else none
  else none

/-- Leftmost match of the unanchored regular expression: try every start
position left to right. -/
def findMatchAux (pfx : List Char) : List Char → Option (String × Bool)
  | [] => matchAt pfx []
  | s@(_ :: t) =>
    match matchAt pfx s with
    | some r => some r
    | none => findMatchAux pfx t

/-- `name.match(new RegExp(`cyanoacrylate-${key}-([a-fA-F0-9]{32})(-headless)?`))`
reduced to the captured hash and the presence of the `-headless` group. -/
def matchEmuName (key : String) (s : String) : Option (String × Bool) :=
  findMatchAux ("cyanoacrylate-" ++ key ++ "-").toList s.toList

/-- JavaScript `s.startsWith(pre)`. -/
def strStartsWith (s pre : String) : Bool :=
  listStartsWith pre.toList s.toList

/-- Processing of one listed avd name (src/src/emulator.ts lines 153–168):
a name that does not match the pattern is ignored; a match with the same
hash and headless marker is kept; any other match is deleted, but only if
the name starts with `cyanoacrylate-`. Returns the kept name (if any) and
the delete operations performed. -/
def resolveStep (hash : EmulatorCreateConfig → String) (c : ManagedEmulatorConfig)
    (name : String) : Option String × List EmuOp :=
  match matchEmuName c.key name with
  | none => (none, [])
  | some (matchedHash, headless) =>
    if matchedHash = hash c.create ∧ headless = c.headless then (some name, [])
    else if strStartsWith name "cyanoacrylate-" then (none, [EmuOp.deleteAvd name])
    else (none, [])

/-- Processing of the whole `listEmulators()` output: the matched names in
list order and all delete operations performed. -/
def resolveExisting (hash : EmulatorCreateConfig → String) (c : ManagedEmulatorConfig) :
    List String → List String × List EmuOp
  | [] => ([], [])
  | name :: rest =>
    ((resolveStep hash c name).1.toList ++ (resolveExisting hash c rest).1,
     (resolveStep hash c name).2 ++ (resolveExisting hash c rest).2)

/-- The outcome of the managed resolve-or-create: the computed emulator
name, the remembered reset snapshot (looked up only when an existing
device is reused) and the avd operations performed. -/
structure ResolveResult where
  name : String
  resetSnapshotName : Option String
  ops : List EmuOp
deriving DecidableEq

/-- `AndroidEmulator.fromRunTarget` (managed branch, src/src/emulator.ts
lines 123–179), as a function of the hash function, the configuration,
the `listEmulators()` output and the `listSnapshots()` output. More than
one match is a fatal internal-consistency error; a unique match is reused
(its `cyanoacrylate-ensured` snapshot remembered if present); otherwise
the avd is created with the computed name. -/
def fromRunTargetManaged (hash : EmulatorCreateConfig → String)
    (c : ManagedEmulatorConfig) (emulatorList : List String)
    (snapshots : List (String × List String)) : Except String ResolveResult :=
  let nm := computeEmulatorName hash c
  if (resolveExisting hash c emulatorList).1.length > 1 then
    .error "Emulator name is not unique. This should never happen."
  else
    match (resolveExisting hash c emulatorList).1 with
    | [m] =>
      .ok { name := nm
            resetSnapshotName :=
              ((snapshots.lookup m).getD []).find?
                (fun s => strStartsWith s "cyanoacrylate-ensured")
            ops := (resolveExisting hash c emulatorList).2 }
    | _ =>
      .ok { name := nm
            resetSnapshotName := none
            ops := (resolveExisting hash c emulatorList).2 ++ [EmuOp.createAvd nm] }

/-- The real md5 hex digest shape: exactly 32 characters of `[a-fA-F0-9]`. -/
def isHex32 (s : String) : Bool :=
  s.toList.length = 32 && s.toList.all hexDigit

/-! ### Helper lemmas about the name matcher -/

theorem listStartsWith_append (p r : List Char) : listStartsWith p (p ++ r) = true := by
  induction p with
  | nil => rfl
  | cons a p ih => simp [listStartsWith, ih]

theorem listStartsWith_self (p : List Char) : listStartsWith p p = true := by
  simpa using listStartsWith_append p []

theorem matchAt_exact (pfx H S : List Char) (hlen : H.length = 32)
    (hhex : H.all hexDigit = true) :
    matchAt pfx (pfx ++ (H ++ S)) = some (⟨H⟩, listStartsWith "-headless".toList S) := by
  have hd : (pfx ++ (H ++ S)).drop pfx.length = H ++ S := List.drop_left pfx (H ++ S)
  have ht : (H ++ S).take 32 = H := by rw [← hlen]; exact List.take_left H S
  have hd32 : (H ++ S).drop 32 = S := by rw [← hlen]; exact List.drop_left H S
  simp [matchAt, listStartsWith_append, hd, ht, hd32, hlen, hhex]

theorem findMatchAux_of_matchAt (pfx s : List Char) (r : String × Bool)
    (h : matchAt pfx s = some r) : findMatchAux pfx s = some r := by
  cases s with
  | nil => simpa [findMatchAux] using h
  | cons a t => simp [findMatchAux, h]

theorem isHex32_elim (s : String) (hx : isHex32 s = true) :
    s.data.length = 32 ∧ s.data.all hexDigit = true := by
  simpa [isHex32, String.toList] using hx

theorem computeName_toList (hash : EmulatorCreateConfig → String)
    (c : ManagedEmulatorConfig) :
    (computeEmulatorName hash c).toList =
      ("cyanoacrylate-" ++ c.key ++ "-").toList ++
        ((hash c.create).data ++
          (if c.headless then ("-headless" : String) else "").data) := by
  simp [computeEmulatorName, String.toList, String.data_append, List.append_assoc]

theorem matchEmuName_computeName (hash : EmulatorCreateConfig → String)
    (c : ManagedEmulatorConfig) (hx : isHex32 (hash c.create) = true) :
    matchEmuName c.key (computeEmulatorName hash c) =
      some (hash c.create, c.headless) := by
  obtain ⟨hlen, hhex⟩ := isHex32_elim _ hx
  unfold matchEmuName
  rw [computeName_toList]
  rw [findMatchAux_of_matchAt _ _ _ (matchAt_exact _ _ _ hlen hhex)]
  cases hc : c.headless <;> simp <;> decide

theorem strStartsWith_computeName (hash : EmulatorCreateConfig → String)
    (c : ManagedEmulatorConfig) :
    strStartsWith (computeEmulatorName hash c) "cyanoacrylate-" = true := by
  have hdata : (computeEmulatorName hash c).toList =
      "cyanoacrylate-".toList ++
        (c.key.data ++ ("-".data ++ ((hash c.create).data ++
          (if c.headless then ("-headless" : String) else "").data))) := by
    simp [computeEmulatorName, String.toList, String.data_append, List.append_assoc]
  rw [strStartsWith, hdata]
  exact listStartsWith_append _ _

theorem computeName_inj (hash : EmulatorCreateConfig → String)
    (c1 c2 : ManagedEmulatorConfig)
    (hkey : c2.key = c1.key) (hhl : c2.headless = c1.headless)
    (hx1 : isHex32 (hash c1.create) = true) (hx2 : isHex32 (hash c2.create) = true)
    (hne : hash c1.create ≠ hash c2.create) :
    computeEmulatorName hash c1 ≠ computeEmulatorName hash c2 := by
  intro heq
  apply hne
  have h1 := (isHex32_elim _ hx1).1
  have h2 := (isHex32_elim _ hx2).1
  have hd := congrArg String.toList heq
  rw [computeName_toList, computeName_toList, hkey, hhl] at hd
  have hmid := List.append_cancel_left hd
  have hlen : (hash c1.create).data.length = (hash c2.create).data.length := by
    rw [h1, h2]
  have hH : (hash c1.create).data = (hash c2.create).data :=
    (List.append_inj hmid hlen).1
  exact String.ext hH

/-! ### Helper lemmas about resolve-or-create -/

theorem resolveStep_self (hash : EmulatorCreateConfig → String)
    (c : ManagedEmulatorConfig) (hx : isHex32 (hash c.create) = true) :
    resolveStep hash c (computeEmulatorName hash c) =
      (some (computeEmulatorName hash c), []) := by
  simp [resolveStep, matchEmuName_computeName hash c hx]

theorem resolveStep_stale (hash : EmulatorCreateConfig → String)
    (c1 c2 : ManagedEmulatorConfig) (hkey : c2.key = c1.key)
    (hx2 : isHex32 (hash c2.create) = true)
    (hne : hash c2.create ≠ hash c1.create) :
    resolveStep hash c1 (computeEmulatorName hash c2) =
      (none, [EmuOp.deleteAvd (computeEmulatorName hash c2)]) := by
  have hm : matchEmuName c1.key (computeEmulatorName hash c2) =
      some (hash c2.create, c2.headless) := by
    rw [← hkey]; exact matchEmuName_computeName hash c2 hx2
  simp [resolveStep, hm, hne, strStartsWith_computeName]

theorem resolveStep_delete_mem (hash : EmulatorCreateConfig → String)
    (c : ManagedEmulatorConfig) (name x : String)
    (h : EmuOp.deleteAvd x ∈ (resolveStep hash c name).2) :
    x = name ∧ strStartsWith name "cyanoacrylate-" = true := by
  unfold resolveStep at h
  rcases hm : matchEmuName c.key name with _ | ⟨mh, hl⟩ <;> rw [hm] at h
  · simp at h
  · by_cases hcond : mh = hash c.create ∧ hl = c.headless
    · simp [hcond] at h
    · by_cases hsw : strStartsWith name "cyanoacrylate-" = true
      · simp [hcond, hsw] at h
        exact ⟨h, hsw⟩
      · simp [hcond, hsw] at h

theorem resolveStep_delete_pos (hash : EmulatorCreateConfig → String)
    (c : ManagedEmulatorConfig) (name mh : String) (hl : Bool)
    (hm : matchEmuName c.key name = some (mh, hl))
    (hdiff : ¬(mh = hash c.create ∧ hl = c.headless))
    (hsw : strStartsWith name "cyanoacrylate-" = true) :
    (resolveStep hash c name).2 = [EmuOp.deleteAvd name] := by
  simp [resolveStep, hm, hdiff, hsw]

theorem resolveExisting_delete_prefixed (hash : EmulatorCreateConfig → String)
    (c : ManagedEmulatorConfig) (L : List String) (x : String)
    (h : EmuOp.deleteAvd x ∈ (resolveExisting hash c L).2) :
    strStartsWith x "cyanoacrylate-" = true := by
  induction L with
  | nil => simp [resolveExisting] at h
  | cons name rest ih =>
    simp only [resolveExisting, List.mem_append] at h
    rcases h with h | h
    · obtain ⟨hx, hsw⟩ := resolveStep_delete_mem hash c name x h
      subst hx; exact hsw
    · exact ih h

theorem resolveExisting_delete_pos (hash : EmulatorCreateConfig → String)
    (c : ManagedEmulatorConfig) (L : List String) (name mh : String) (hl : Bool)
    (hmem : name ∈ L) (hm : matchEmuName c.key name = some (mh, hl))
    (hdiff : ¬(mh = hash c.create ∧ hl = c.headless))
    (hsw : strStartsWith name "cyanoacrylate-" = true) :
    EmuOp.deleteAvd name ∈ (resolveExisting hash c L).2 := by
  induction L with
  | nil => simp at hmem
  | cons hd rest ih =>
    simp only [resolveExisting, List.mem_append]
    rcases List.mem_cons.mp hmem with heq | hmem2
    · left
      rw [← heq, resolveStep_delete_pos hash c name mh hl hm hdiff hsw]
      simp
    · right; exact ih hmem2

/-! ### Concrete instances used by the resolve-or-create witnesses -/

/-- A 32-character hexadecimal digest. -/
def md5A : String := "0123456789abcdef0123456789abcdef"

/-- A different 32-character hexadecimal digest. -/
def md5B : String := "ffffffffffffffffffffffffffffffff"

/-- A concrete managed-emulator configuration. -/
def emuCfgA : ManagedEmulatorConfig :=
  ⟨"test", ⟨⟨30, "google_apis", "x86_64"⟩, "honey-a", []⟩, false⟩

/-- The same configuration with different honey data. -/
def emuCfgB : ManagedEmulatorConfig :=
  ⟨"test", ⟨⟨30, "google_apis", "x86_64"⟩, "honey-b", []⟩, false⟩

/-- A concrete stand-in for the md5 fingerprint on the two witness
configurations. -/
def md5Model : EmulatorCreateConfig → String :=
  fun cc => if cc.honeyData = "honey-a" then md5A else md5B

/-! ### Claim theorems for resolve-or-create -/

/-- C5: with the md5 fingerprints of the two creation configurations
assumed distinct when the configurations are (collision-freeness of the
external md5 `hashObject`), `fromRunTarget`'s managed resolve-or-create
is deterministic: the same configuration yields the same name, and a
second run over a device list containing exactly the first run's device
reuses it without creating a duplicate; a differing configuration yields
a different name, and an existing device of the different fingerprint is
not matched (it is cleaned up and a fresh device created); more than one
existing match is the fatal internal-consistency error. -/
theorem fromRunTarget_fingerprint_determinism
    (hash : EmulatorCreateConfig → String) (c1 c2 : ManagedEmulatorConfig)
    (snaps : List (String × List String))
    (hx1 : isHex32 (hash c1.create) = true) (hx2 : isHex32 (hash c2.create) = true)
    (hkey : c2.key = c1.key) (hhl : c2.headless = c1.headless) :
    (hash c1.create = hash c2.create →
      computeEmulatorName hash c1 = computeEmulatorName hash c2) ∧
    (∃ snap, fromRunTargetManaged hash c1 [computeEmulatorName hash c1] snaps =
        .ok ⟨computeEmulatorName hash c1, snap, []⟩) ∧
    (hash c1.create ≠ hash c2.create →
      computeEmulatorName hash c1 ≠ computeEmulatorName hash c2 ∧
      fromRunTargetManaged hash c1 [computeEmulatorName hash c2] snaps =
        .ok ⟨computeEmulatorName hash c1, none,
             [EmuOp.deleteAvd (computeEmulatorName hash c2),
              EmuOp.createAvd (computeEmulatorName hash c1)]⟩) ∧
    (∀ L : List String, (resolveExisting hash c1 L).1.length > 1 →
      fromRunTargetManaged hash c1 L snaps =
        .error "Emulator name is not unique. This should never happen.") := by
  refine ⟨?_, ?_, ?_, ?_⟩
  · intro h
    simp [computeEmulatorName, hkey, hhl, h]
  · have hres : resolveExisting hash c1 [computeEmulatorName hash c1] =
        ([computeEmulatorName hash c1], []) := by
      simp [resolveExisting, resolveStep_self hash c1 hx1]
    refine ⟨((snaps.lookup (computeEmulatorName hash c1)).getD []).find?
      (fun s => strStartsWith s "cyanoacrylate-ensured"), ?_⟩
    simp [fromRunTargetManaged, hres]
  · intro hne
    refine ⟨computeName_inj hash c1 c2 hkey hhl hx1 hx2 hne, ?_⟩
    have hres : resolveExisting hash c1 [computeEmulatorName hash c2] =
        ([], [EmuOp.deleteAvd (computeEmulatorName hash c2)]) := by
      simp [resolveExisting,
        resolveStep_stale hash c1 c2 hkey hx2 (fun h => hne h.symm)]
    simp [fromRunTargetManaged, hres]
  · intro L hL
    simp [fromRunTargetManaged, hL]

/-- Witness for C5: two concrete configurations differing only in honey
data produce different names, and a duplicated listing of the same
device is the fatal error. -/
theorem fromRunTarget_fingerprint_determinism_witness :
    computeEmulatorName md5Model emuCfgA ≠ computeEmulatorName md5Model emuCfgB ∧
    fromRunTargetManaged md5Model emuCfgA
        [computeEmulatorName md5Model emuCfgA, computeEmulatorName md5Model emuCfgA] [] =
      .error "Emulator name is not unique. This should never happen." := by
  have h := fromRunTarget_fingerprint_determinism md5Model emuCfgA emuCfgB []
    (by decide) (by decide) rfl rfl
  exact ⟨(h.2.2.1 (by decide)).1,
    h.2.2.2 [computeEmulatorName md5Model emuCfgA, computeEmulatorName md5Model emuCfgA]
      (by decide)⟩

/-- C9: during managed resolve-or-create, every `deleteEmulator` call is
made on a name that starts with `cyanoacrylate-` — a listed device whose
name matches the naming pattern with a differing fingerprint is deleted
exactly when it carries that marker, and a device whose name lacks the
marker is never deleted, for every list of existing emulators. -/
theorem fromRunTarget_delete_only_owned (hash : EmulatorCreateConfig → String)
    (c : ManagedEmulatorConfig) (L : List String)
    (snaps : List (String × List String)) :
    (∀ r x, fromRunTargetManaged hash c L snaps = .ok r →
      EmuOp.deleteAvd x ∈ r.ops → strStartsWith x "cyanoacrylate-" = true) ∧
    (∀ x, EmuOp.deleteAvd x ∈ (resolveExisting hash c L).2 →
      strStartsWith x "cyanoacrylate-" = true) ∧
    (∀ (name mh : String) (hl : Bool), name ∈ L →
      matchEmuName c.key name = some (mh, hl) →
      ¬(mh = hash c.create ∧ hl = c.headless) →
      strStartsWith name "cyanoacrylate-" = true →
      EmuOp.deleteAvd name ∈ (resolveExisting hash c L).2) := by
  refine ⟨?_, ?_, ?_⟩
  · intro r x hr hx
    have hmem : EmuOp.deleteAvd x ∈ (resolveExisting hash c L).2 := by
      unfold fromRunTargetManaged at hr
      split at hr
      · exact absurd hr (by simp)
      · split at hr <;> simp only [Except.ok.injEq] at hr <;> subst hr <;>
          simp only [List.mem_append, List.mem_singleton] at hx
        · exact hx
        · rcases hx with hx | hx
          · exact hx
          · exact absurd hx (by simp)
    exact resolveExisting_delete_prefixed hash c L x hmem
  · intro x hx
    exact resolveExisting_delete_prefixed hash c L x hx
  · intro name mh hl hmem hm hdiff hsw
    exact resolveExisting_delete_pos hash c L name mh hl hmem hm hdiff hsw

/-- Witness for C9: a listed device with the pattern but a stale
fingerprint is deleted, and the deleted name carries the
`cyanoacrylate-` marker. -/
theorem fromRunTarget_delete_only_owned_witness :
    EmuOp.deleteAvd ("cyanoacrylate-test-" ++ md5B) ∈
      (resolveExisting md5Model emuCfgA ["cyanoacrylate-test-" ++ md5B]).2 ∧
    strStartsWith ("cyanoacrylate-test-" ++ md5B) "cyanoacrylate-" = true := by
  have h := fromRunTarget_delete_only_owned md5Model emuCfgA
    ["cyanoacrylate-test-" ++ md5B] []
  refine ⟨h.2.2 ("cyanoacrylate-test-" ++ md5B) md5B false (by decide) (by decide)
    (by decide) (by decide), h.2.1 ("cyanoacrylate-test-" ++ md5B) ?_⟩
  exact h.2.2 ("cyanoacrylate-test-" ++ md5B) md5B false (by decide) (by decide)
    (by decide) (by decide)

end Cyanoacrylate
